import Mathlib

/-!
Shallow embedding of `container/trust.go` from the watchtower repository.

The file transcribes the registry-credential resolution chain: two auth
backends (environment variables, docker config file), the chain driver
`firstValidAuth`, the server-address parsing helper, the credential-store
selection and the base64 encoding entry points.  External collaborators
(`reference.Parse`, `cliconfig.Load`, `credentials.Store.Get`,
`command.EncodeAuthToBase64`) are modelled as opaque function parameters
bundled in a `World` record; Go's `(value, error)` returns become pairs
with `Option GoError`, Go nil pointers become `Option`, and a nil-pointer
dereference is modelled by a distinguished `GoOutcome.panicked` result.
-/

namespace Watchtower

/-- Go `error` values, identified by their message. -/
abbrev GoError := String

/-- Go struct `types.AuthConfig` (docker api): the fields compared by the
zero-value test `auth == (types.AuthConfig{})` in `authFromDockerConfig`. -/
structure AuthConfig where
  username : String
  password : String
  auth : String
  email : String
  serverAddress : String
  identityToken : String
  registryToken : String
deriving DecidableEq, Repr

/-- The Go zero value `types.AuthConfig{}`: every field empty. -/
def AuthConfig.empty : AuthConfig :=
  { username := "", password := "", auth := "", email := "",
    serverAddress := "", identityToken := "", registryToken := "" }

/-- Go struct `configfile.ConfigFile`, restricted to the two fields read by
`CredentialsStore`: the global `CredentialsStore` name and the per-server
`CredentialHelpers` map (modelled as an association list). -/
structure ConfigFile where
  credentialsStore : String
  credentialHelpers : List (String × String)
deriving DecidableEq, Repr

/-- A `credentials.Store` value as produced by `CredentialsStore`:
`credentials.NewNativeStore(&configFile, helper)` or
`credentials.NewFileStore(&configFile)`. -/
inductive Store where
  | nativeStore (configFile : ConfigFile) (helper : String)
  | fileStore (configFile : ConfigFile)
deriving DecidableEq, Repr

/-- The ambient process environment, restricted to the three variables the
component reads via `os.Getenv`; an unset variable reads as `""` in Go. -/
structure Env where
  repoUser : String
  repoPass : String
  dockerConfig : String
deriving DecidableEq, Repr

/-- The external collaborators of `trust.go`, treated as opaque:
  * `referenceParse r` models `reference.Parse(r)` restricted to the
    repository component and the error (the tag is discarded by the code);
  * `cliconfigLoad dir` models `cliconfig.Load(dir)`;
  * `storeGet store server` models `store.Get(server)` on the selected
    credential store;
  * `encodeAuthToBase64 a` models `command.EncodeAuthToBase64(a)`. -/
structure World where
  referenceParse : String → String × Option GoError
  cliconfigLoad : String → ConfigFile × Option GoError
  storeGet : Store → String → AuthConfig × Option GoError
  encodeAuthToBase64 : AuthConfig → String × Option GoError

/-- Go type `authBackend func(string) (*types.AuthConfig, error)`: the nil
pointer is `none`, the nil error is `none`. -/
abbrev authBackend := String → Option AuthConfig × Option GoError

/-- `firstValidAuth` (trust.go lines 37-45): tries backends in order and
returns the first result whose pointer or error is non-nil. -/
def firstValidAuth (repo : String) : List authBackend → Option AuthConfig × Option GoError
  | [] => (none, none)
  | backend :: rest =>
    let res := backend repo
    if res.1.isSome ∨ res.2.isSome then res else firstValidAuth repo rest

/-- `authFromEnv` (trust.go lines 48-62): reads `REPO_USER` and `REPO_PASS`;
if both are non-empty it returns a populated `AuthConfig`, else `(nil, nil)`.
The backend ignores its repository argument. -/
def authFromEnv (env : Env) : authBackend :=
  fun _ =>
    let username := env.repoUser
    let password := env.repoPass
    if username ≠ "" ∧ password ≠ "" then
      (some { AuthConfig.empty with username := username, password := password }, none)
    else
      (none, none)

/-- `ParseServerAddress` (trust.go lines 88-95): on parse failure returns the
raw reference together with the error; on success splits the repository on
`/` and returns the first segment (Go `strings.Split` never returns an empty
slice, and neither does `String.splitOn`). -/
def ParseServerAddress (w : World) (ref : String) : String × Option GoError :=
  let parsed := w.referenceParse ref
  match parsed.2 with
  | some err => (ref, some err)
  | none => ((parsed.1.splitOn "/").headD "", none)

/-- The config directory computation of trust.go lines 68-71: `DOCKER_CONFIG`
if set, else `"/"`. -/
def dockerConfigDir (env : Env) : String :=
  if env.dockerConfig = "" then "/" else env.dockerConfig

/-- `CredentialsStore` (trust.go lines 99-108): a non-empty global
`CredentialsStore` name selects a native store with that name; otherwise a
per-server `CredentialHelpers` entry selects a native store with that helper;
otherwise the plain file store is used. -/
def CredentialsStore (configFile : ConfigFile) (server : String) : Store :=
  if configFile.credentialsStore ≠ "" then
    Store.nativeStore configFile configFile.credentialsStore
  else
    match configFile.credentialHelpers.lookup server with
    | some helper => Store.nativeStore configFile helper
    | none => Store.fileStore configFile

/-- Trust.go lines 72-83, the steps of `authFromDockerConfig` after the
server string has been derived: load the config file (a load error is
returned), select the store, query it — the error of `credStore.Get` is
assigned but never inspected by the code, which the model mirrors by
discarding it — and collapse the zero-value credential to `(nil, nil)`. -/
def configBackendLookup (env : Env) (w : World) (server : String) :
    Option AuthConfig × Option GoError :=
  let loaded := w.cliconfigLoad (dockerConfigDir env)
  match loaded.2 with
  | some err => (none, some err)
  | none =>
    let credStore := CredentialsStore loaded.1 server
    let got := w.storeGet credStore server
    if got.1 = AuthConfig.empty then (none, none) else (some got.1, none)

/-- `authFromDockerConfig` (trust.go lines 65-85): derive the server from the
reference — the parse error is assigned to `err` but immediately overwritten
by the `cliconfig.Load` result, so it is discarded here — then run the
lookup steps of `configBackendLookup` on that server string. -/
def authFromDockerConfig (env : Env) (w : World) : authBackend :=
  fun ref =>
    let parsed := ParseServerAddress w ref
    configBackendLookup env w parsed.1

/-- The backend chain of `EncodedAuth` (trust.go lines 22-25):
`firstValidAuth(ref, []authBackend{authFromEnv(), authFromDockerConfig()})`. -/
def resolve (env : Env) (w : World) (ref : String) : Option AuthConfig × Option GoError :=
  firstValidAuth ref [authFromEnv env, authFromDockerConfig env w]

/-- The result of a Go function that may hit a runtime panic. -/
inductive GoOutcome (α : Type) where
  | ok (val : α)
  | panicked
deriving DecidableEq, Repr

/-- `EncodeAuth` (trust.go lines 113-115): `command.EncodeAuthToBase64(*auth)`.
Dereferencing a nil `*types.AuthConfig` is a Go runtime panic. -/
def EncodeAuth (w : World) (auth : Option AuthConfig) : GoOutcome (String × Option GoError) :=
  match auth with
  | some a => GoOutcome.ok (w.encodeAuthToBase64 a)
  | none => GoOutcome.panicked

/-- `EncodedAuth` (trust.go lines 21-31): run the chain; then, as written in
the source, `if err != nil { return EncodeAuth(auth) }; return "", err`. -/
def EncodedAuth (env : Env) (w : World) (ref : String) : GoOutcome (String × Option GoError) :=
  let res := resolve env w ref
  if res.2.isSome then EncodeAuth w res.1
  else GoOutcome.ok ("", res.2)

/-- `DefaultAuthHandler` (trust.go lines 122-125): always `("", nil)`. -/
def DefaultAuthHandler : String × Option GoError := ("", none)

/-! ### Concrete fixtures used by witnesses and counterexamples -/

/-- Environment with `REPO_USER=user`, `REPO_PASS=pass`, `DOCKER_CONFIG` unset. -/
def envBoth : Env := { repoUser := "user", repoPass := "pass", dockerConfig := "" }

/-- Environment with all three variables unset. -/
def envNone : Env := { repoUser := "", repoPass := "", dockerConfig := "" }

/-- Config file with no credentials-store setting and no helper entries. -/
def cfPlain : ConfigFile := { credentialsStore := "", credentialHelpers := [] }

/-- Config file with a global store name and also a per-server helper entry. -/
def cfGlobal : ConfigFile :=
  { credentialsStore := "globalhelper", credentialHelpers := [("srv", "perserver")] }

/-- Config file with only a per-server helper entry for `srv`. -/
def cfHelper : ConfigFile := { credentialsStore := "", credentialHelpers := [("srv", "perserver")] }

/-- World whose collaborators all succeed and whose store holds no entry:
parsing is the identity, loading yields `cfPlain`, every lookup yields the
zero credential, and encoding renders the username and password. -/
def wOk : World :=
  { referenceParse := fun r => (r, none)
    cliconfigLoad := fun _ => (cfPlain, none)
    storeGet := fun _ _ => (AuthConfig.empty, none)
    encodeAuthToBase64 := fun a => ("B64:" ++ a.username ++ ":" ++ a.password, none) }

/-- World identical to `wOk` except that `cliconfig.Load` fails. -/
def wLoadFail : World :=
  { wOk with cliconfigLoad := fun _ => (cfPlain, some "config load failure") }

/-- World identical to `wOk` except that the store `Get` call fails. -/
def wGetFail : World :=
  { wOk with storeGet := fun _ _ => (AuthConfig.empty, some "store lookup failure") }

/-- World identical to `wOk` except that `reference.Parse` fails. -/
def wParseFail : World :=
  { wOk with referenceParse := fun r => (r, some "invalid reference format") }

/-- An auth backend that always reports "not found": `(nil, nil)`. -/
def absentBackend : authBackend := fun _ => (none, none)

/-- An auth backend that always yields the zero credential with nil error. -/
def credBackend : authBackend := fun _ => (some AuthConfig.empty, none)

/-! ### Helper lemmas on the chain driver -/

lemma firstValidAuth_cons (repo : String) (b : authBackend) (rest : List authBackend) :
    firstValidAuth repo (b :: rest) =
      if (b repo).1.isSome ∨ (b repo).2.isSome then b repo else firstValidAuth repo rest := rfl

lemma firstValidAuth_cons_absent (repo : String) (b : authBackend) (rest : List authBackend)
    (hb : b repo = (none, none)) :
    firstValidAuth repo (b :: rest) = firstValidAuth repo rest := by
  rw [firstValidAuth_cons, hb]
  simp

lemma firstValidAuth_append_absent (repo : String) (pre rest : List authBackend)
    (h : ∀ bk ∈ pre, bk repo = (none, none)) :
    firstValidAuth repo (pre ++ rest) = firstValidAuth repo rest := by
  induction pre with
  | nil => rfl
  | cons b pre ih =>
    rw [List.cons_append,
      firstValidAuth_cons_absent repo b (pre ++ rest) (h b (List.mem_cons_self b pre))]
    exact ih fun bk hbk => h bk (List.mem_cons_of_mem b hbk)

lemma firstValidAuth_all_absent (repo : String) (backends : List authBackend)
    (h : ∀ bk ∈ backends, bk repo = (none, none)) :
    firstValidAuth repo backends = (none, none) := by
  have := firstValidAuth_append_absent repo backends [] h
  rwa [List.append_nil] at this

lemma firstValidAuth_cons_definitive (repo : String) (b : authBackend)
    (rest : List authBackend) (hdef : (b repo).1.isSome ∨ (b repo).2.isSome) :
    firstValidAuth repo (b :: rest) = b repo := by
  rw [firstValidAuth_cons, if_pos hdef]

/-! ### Helper lemmas on the individual backends -/

lemma authFromEnv_set (env : Env) (ref : String)
    (h : env.repoUser ≠ "" ∧ env.repoPass ≠ "") :
    authFromEnv env ref
      = (some { AuthConfig.empty with username := env.repoUser, password := env.repoPass },
         none) := by
  simp only [authFromEnv, if_pos h]

lemma authFromEnv_unset (env : Env) (ref : String)
    (h : env.repoUser = "" ∨ env.repoPass = "") :
    authFromEnv env ref = (none, none) := by
  rcases h with h | h <;> simp [authFromEnv, h]

lemma configBackendLookup_loadFail (env : Env) (w : World) (server : String) (e : GoError)
    (hload : (w.cliconfigLoad (dockerConfigDir env)).2 = some e) :
    configBackendLookup env w server = (none, some e) := by
  simp only [configBackendLookup, hload]

lemma configBackendLookup_loadOk (env : Env) (w : World) (server : String)
    (hload : (w.cliconfigLoad (dockerConfigDir env)).2 = none) :
    configBackendLookup env w server =
      (if (w.storeGet (CredentialsStore (w.cliconfigLoad (dockerConfigDir env)).1 server)
            server).1 = AuthConfig.empty
       then (none, none)
       else (some (w.storeGet
              (CredentialsStore (w.cliconfigLoad (dockerConfigDir env)).1 server) server).1,
             none)) := by
  simp only [configBackendLookup, hload]

/-! ### Claim theorems -/

/-- C10: the environment backend's result is independent of the repository
reference: under one and the same environment, `authFromEnv` returns
identical results for any two references. -/
theorem C10_env_backend_ref_independent (env : Env) (ref1 ref2 : String) :
    authFromEnv env ref1 = authFromEnv env ref2 := rfl

/-- C9: credential-store selection is the deterministic function
`CredentialsStore` of the config-file content and the server: a non-empty
global `CredentialsStore` name selects a native store with that name and
overrides any per-server helper entry; with the global name empty, a
per-server `CredentialHelpers` entry selects a native store with that
helper; with neither, the plain file store is selected. -/
theorem C9_store_selection_priority (cf : ConfigFile) (server helper : String) :
    (cf.credentialsStore ≠ "" →
      CredentialsStore cf server = Store.nativeStore cf cf.credentialsStore)
    ∧ (cf.credentialsStore = "" → cf.credentialHelpers.lookup server = some helper →
      CredentialsStore cf server = Store.nativeStore cf helper)
    ∧ (cf.credentialsStore = "" → cf.credentialHelpers.lookup server = none →
      CredentialsStore cf server = Store.fileStore cf) := by
  refine ⟨fun hg => ?_, fun hg hh => ?_, fun hg hh => ?_⟩
  · simp only [CredentialsStore, if_pos hg]
  · simp only [CredentialsStore, hg, hh]
    simp
  · simp only [CredentialsStore, hg, hh]
    simp

/-- Witness for C9: the three priority cases at concrete config files — the
global name wins even though `cfGlobal` also has a helper entry for `srv`. -/
theorem C9_store_selection_priority_witness :
    CredentialsStore cfGlobal "srv" = Store.nativeStore cfGlobal "globalhelper"
    ∧ CredentialsStore cfHelper "srv" = Store.nativeStore cfHelper "perserver"
    ∧ CredentialsStore cfPlain "srv" = Store.fileStore cfPlain :=
  ⟨(C9_store_selection_priority cfGlobal "srv" "perserver").1 (by decide),
   (C9_store_selection_priority cfHelper "srv" "perserver").2.1 rfl rfl,
   (C9_store_selection_priority cfPlain "srv" "perserver").2.2 rfl rfl⟩

/-- C5: `firstValidAuth` returns the result of the first backend yielding a
non-nil credential pointer or a non-nil error, and later backends cannot
influence that result (the conclusion holds for every continuation of the
list); when every backend returns `(nil, nil)`, the chain returns
`(nil, nil)`. -/
theorem C5_first_definitive_result (repo : String) (pre backends : List authBackend)
    (b : authBackend) (res : Option AuthConfig × Option GoError)
    (hpre : ∀ bk ∈ pre, bk repo = (none, none))
    (hb : b repo = res)
    (hdef : res.1.isSome ∨ res.2.isSome) :
    (∀ post : List authBackend, firstValidAuth repo (pre ++ b :: post) = res)
    ∧ ((∀ bk ∈ backends, bk repo = (none, none)) →
      firstValidAuth repo backends = (none, none)) := by
  constructor
  · intro post
    rw [firstValidAuth_append_absent repo pre (b :: post) hpre,
      firstValidAuth_cons_definitive repo b post (hb ▸ hdef), hb]
  · exact firstValidAuth_all_absent repo backends

/-- Witness for C5: with one absent backend before a producing one, the chain
returns the producing backend's result whatever follows; an all-absent chain
returns `(nil, nil)`. -/
theorem C5_first_definitive_result_witness :
    firstValidAuth "r" [absentBackend, credBackend, absentBackend]
      = (some AuthConfig.empty, none)
    ∧ firstValidAuth "r" [absentBackend, absentBackend] = (none, none) := by
  have h := C5_first_definitive_result "r" [absentBackend]
    [absentBackend, absentBackend] credBackend (some AuthConfig.empty, none)
    (by intro bk hbk; rw [List.mem_singleton] at hbk; subst hbk; rfl)
    rfl (Or.inl rfl)
  refine ⟨h.1 [absentBackend], h.2 ?_⟩
  intro bk hbk
  rcases List.mem_cons.mp hbk with rfl | hbk
  · rfl
  · rw [List.mem_singleton] at hbk
    subst hbk
    rfl

/-- C4: when `reference.Parse` fails, `ParseServerAddress` returns the raw
reference string as the best-effort server identifier together with the
parse error, and `authFromDockerConfig` runs its subsequent lookup steps on
exactly that raw string. -/
theorem C4_parse_failure_fallback (env : Env) (w : World) (ref repo : String) (e : GoError)
    (hp : w.referenceParse ref = (repo, some e)) :
    ParseServerAddress w ref = (ref, some e)
    ∧ authFromDockerConfig env w ref = configBackendLookup env w ref := by
  have h1 : ParseServerAddress w ref = (ref, some e) := by
    simp [ParseServerAddress, hp]
  exact ⟨h1, by simp [authFromDockerConfig, h1]⟩

/-- Witness for C4: a world whose reference parser rejects `###`; the parse
error is returned alongside the raw string, which feeds the lookup. -/
theorem C4_parse_failure_fallback_witness :
    wParseFail.referenceParse "###" = ("###", some "invalid reference format")
    ∧ ParseServerAddress wParseFail "###" = ("###", some "invalid reference format")
    ∧ authFromDockerConfig envNone wParseFail "###"
      = configBackendLookup envNone wParseFail "###" := by
  have h := C4_parse_failure_fallback envNone wParseFail "###" "###"
    "invalid reference format" rfl
  exact ⟨rfl, h.1, h.2⟩

/-- C6: whenever `REPO_USER` and `REPO_PASS` are both non-empty, the chain
returns exactly that pair with nil error, and the result is the same
whatever the config-file world is (the config backend is never consulted);
whenever either variable is empty, the environment backend returns
`(nil, nil)` — it never errors. -/
theorem C6_env_priority (env envUnset : Env) (w w2 : World) (ref : String)
    (hset : env.repoUser ≠ "" ∧ env.repoPass ≠ "")
    (hunset : envUnset.repoUser = "" ∨ envUnset.repoPass = "") :
    resolve env w ref
      = (some { AuthConfig.empty with username := env.repoUser, password := env.repoPass },
         none)
    ∧ resolve env w ref = resolve env w2 ref
    ∧ authFromEnv envUnset ref = (none, none) := by
  have henv := authFromEnv_set env ref hset
  have hres : ∀ w3 : World, resolve env w3 ref
      = (some { AuthConfig.empty with username := env.repoUser, password := env.repoPass },
         none) := by
    intro w3
    rw [resolve, firstValidAuth_cons_definitive ref (authFromEnv env) _
      (by rw [henv]; exact Or.inl rfl), henv]
  exact ⟨hres w, (hres w).trans (hres w2).symm, authFromEnv_unset envUnset ref hunset⟩

/-- Witness for C6: with `REPO_USER=user`, `REPO_PASS=pass`, the chain yields
that pair under both a healthy and a broken config world; with both unset,
the environment backend yields `(nil, nil)`. -/
theorem C6_env_priority_witness :
    ("user" ≠ "" ∧ "pass" ≠ "")
    ∧ resolve envBoth wLoadFail "docker.io/library/alpine"
      = (some { AuthConfig.empty with username := "user", password := "pass" }, none)
    ∧ resolve envBoth wLoadFail "docker.io/library/alpine"
      = resolve envBoth wOk "docker.io/library/alpine"
    ∧ authFromEnv envNone "docker.io/library/alpine" = (none, none) := by
  have h := C6_env_priority envBoth envNone wLoadFail wOk "docker.io/library/alpine"
    (by decide) (Or.inl rfl)
  exact ⟨by decide, h.1, h.2.1, h.2.2⟩

/-- C7: when the environment backend is absent and the config file cannot be
loaded, the chain returns a nil credential with exactly the load error — the
absent environment result does not mask it. -/
theorem C7_load_error_surfaces (env : Env) (w : World) (ref : String) (e : GoError)
    (henv : authFromEnv env ref = (none, none))
    (hload : (w.cliconfigLoad (dockerConfigDir env)).2 = some e) :
    resolve env w ref = (none, some e) := by
  have hcfg : authFromDockerConfig env w ref = (none, some e) := by
    show configBackendLookup env w (ParseServerAddress w ref).1 = (none, some e)
    exact configBackendLookup_loadFail env w _ e hload
  rw [resolve, firstValidAuth_cons_absent ref (authFromEnv env) _ henv,
    firstValidAuth_cons_definitive ref (authFromDockerConfig env w) []
      (by rw [hcfg]; exact Or.inr rfl), hcfg]

/-- Witness for C7: no environment credentials and a failing config load
produce `(nil, "config load failure")` from the chain. -/
theorem C7_load_error_surfaces_witness :
    authFromEnv envNone "docker.io/library/alpine" = (none, none)
    ∧ (wLoadFail.cliconfigLoad (dockerConfigDir envNone)).2 = some "config load failure"
    ∧ resolve envNone wLoadFail "docker.io/library/alpine"
      = (none, some "config load failure") :=
  ⟨rfl, rfl,
   C7_load_error_surfaces envNone wLoadFail "docker.io/library/alpine"
     "config load failure" rfl rfl⟩

/-- C8: when the store lookup for the derived server returns the zero-value
sentinel credential, the config backend collapses it to `(nil, nil)`; hence
with the environment variables unset or empty and no matching server entry
the whole resolution returns `(nil, nil)`. -/
theorem C8_empty_sentinel_absent (env : Env) (w : World) (ref : String)
    (henv : env.repoUser = "" ∨ env.repoPass = "")
    (hload : (w.cliconfigLoad (dockerConfigDir env)).2 = none)
    (hget : (w.storeGet (CredentialsStore (w.cliconfigLoad (dockerConfigDir env)).1
        (ParseServerAddress w ref).1) (ParseServerAddress w ref).1).1 = AuthConfig.empty) :
    authFromDockerConfig env w ref = (none, none)
    ∧ resolve env w ref = (none, none) := by
  have hcfg : authFromDockerConfig env w ref = (none, none) := by
    show configBackendLookup env w (ParseServerAddress w ref).1 = (none, none)
    rw [configBackendLookup_loadOk env w _ hload, if_pos hget]
  refine ⟨hcfg, ?_⟩
  rw [resolve]
  apply firstValidAuth_all_absent
  intro bk hbk
  rcases List.mem_cons.mp hbk with rfl | hbk
  · exact authFromEnv_unset env ref henv
  · rw [List.mem_singleton] at hbk
    subst hbk
    exact hcfg

/-- Witness for C8: empty environment, a loadable config with no entries and
a store answering the zero credential yield `(nil, nil)` from both the
config backend and the whole chain. -/
theorem C8_empty_sentinel_absent_witness :
    (wOk.cliconfigLoad (dockerConfigDir envNone)).2 = none
    ∧ (wOk.storeGet (CredentialsStore (wOk.cliconfigLoad (dockerConfigDir envNone)).1
        (ParseServerAddress wOk "docker.io/library/alpine").1)
        (ParseServerAddress wOk "docker.io/library/alpine").1).1 = AuthConfig.empty
    ∧ authFromDockerConfig envNone wOk "docker.io/library/alpine" = (none, none)
    ∧ resolve envNone wOk "docker.io/library/alpine" = (none, none) := by
  have h := C8_empty_sentinel_absent envNone wOk "docker.io/library/alpine"
    (Or.inl rfl) rfl rfl
  exact ⟨rfl, rfl, h.1, h.2⟩

/-- C1 (code bug): with `REPO_USER=user` and `REPO_PASS=pass` the environment
backend yields that credential with nil error, and the encoder would render
it as `B64:user:pass`, yet `EncodedAuth` returns `("", nil)` — trust.go line
26 tests `err != nil` where the success path was plainly intended (the debug
log "Loaded auth credentials" sits in that branch), so the credential is
discarded instead of encoded. -/
theorem C1_success_discards_credential :
    resolve envBoth wOk "docker.io/library/alpine"
      = (some { AuthConfig.empty with username := "user", password := "pass" }, none)
    ∧ EncodedAuth envBoth wOk "docker.io/library/alpine" = GoOutcome.ok ("", none)
    ∧ wOk.encodeAuthToBase64 { AuthConfig.empty with username := "user", password := "pass" }
      = ("B64:user:pass", none) := by
  refine ⟨?_, ?_, ?_⟩ <;> rfl

/-- C2 (code bug): when a backend returns an error — here a config-load
failure with no environment credentials — `EncodedAuth` takes the
`err != nil` branch and calls `EncodeAuth` on the nil credential pointer,
a nil dereference, i.e. a runtime panic; the claim's no-panic scenario with
a healthy load policy and no stored credential does return `("", nil)`
without a panic (third conjunct). -/
theorem C2_backend_error_panics :
    resolve envNone wLoadFail "docker.io/library/alpine"
      = (none, some "config load failure")
    ∧ EncodedAuth envNone wLoadFail "docker.io/library/alpine" = GoOutcome.panicked
    ∧ EncodedAuth envNone wOk "docker.io/library/alpine" = GoOutcome.ok ("", none) := by
  refine ⟨?_, ?_, ?_⟩ <;> rfl

/-- C3 counterexample: the store `Get` call fails with "store lookup failure",
yet `authFromDockerConfig` returns `(nil, nil)` — the error is not returned
verbatim, contradicting the claim. -/
theorem C3_get_error_not_returned :
    wGetFail.storeGet (Store.fileStore cfPlain) "docker.io"
      = (AuthConfig.empty, some "store lookup failure")
    ∧ authFromDockerConfig envNone wGetFail "docker.io/library/alpine" = (none, none)
    ∧ (authFromDockerConfig envNone wGetFail "docker.io/library/alpine").2
      ≠ some "store lookup failure" := by
  refine ⟨rfl, rfl, ?_⟩
  intro h
  exact Option.noConfusion h

/-- C3 amended: trust.go line 79 assigns the `Get` error but never inspects
it, so a failing store lookup is silently discarded: the backend's error
component is nil regardless, and the result collapses to `(nil, nil)` when
the returned credential equals the zero sentinel and to `(credential, nil)`
otherwise. -/
theorem C3_get_error_discarded (env : Env) (w : World) (ref : String) (e : GoError)
    (hload : (w.cliconfigLoad (dockerConfigDir env)).2 = none)
    (_hget : (w.storeGet (CredentialsStore (w.cliconfigLoad (dockerConfigDir env)).1
        (ParseServerAddress w ref).1) (ParseServerAddress w ref).1).2 = some e) :
    (authFromDockerConfig env w ref).2 = none
    ∧ authFromDockerConfig env w ref
      = (if (w.storeGet (CredentialsStore (w.cliconfigLoad (dockerConfigDir env)).1
            (ParseServerAddress w ref).1) (ParseServerAddress w ref).1).1 = AuthConfig.empty
         then (none, none)
         else (some (w.storeGet (CredentialsStore (w.cliconfigLoad (dockerConfigDir env)).1
            (ParseServerAddress w ref).1) (ParseServerAddress w ref).1).1, none)) := by
  have h2 : authFromDockerConfig env w ref
      = (if (w.storeGet (CredentialsStore (w.cliconfigLoad (dockerConfigDir env)).1
            (ParseServerAddress w ref).1) (ParseServerAddress w ref).1).1 = AuthConfig.empty
         then (none, none)
         else (some (w.storeGet (CredentialsStore (w.cliconfigLoad (dockerConfigDir env)).1
            (ParseServerAddress w ref).1) (ParseServerAddress w ref).1).1, none)) := by
    show configBackendLookup env w (ParseServerAddress w ref).1 = _
    exact configBackendLookup_loadOk env w _ hload
  refine ⟨?_, h2⟩
  rw [h2]
  split <;> rfl

/-- Witness for the amended C3: a loadable config and a failing store lookup
leave the backend's error component nil. -/
theorem C3_get_error_discarded_witness :
    (wGetFail.cliconfigLoad (dockerConfigDir envNone)).2 = none
    ∧ (wGetFail.storeGet (CredentialsStore
        (wGetFail.cliconfigLoad (dockerConfigDir envNone)).1
        (ParseServerAddress wGetFail "docker.io/library/alpine").1)
        (ParseServerAddress wGetFail "docker.io/library/alpine").1).2
      = some "store lookup failure"
    ∧ (authFromDockerConfig envNone wGetFail "docker.io/library/alpine").2 = none := by
  have h := C3_get_error_discarded envNone wGetFail "docker.io/library/alpine"
    "store lookup failure" rfl rfl
  exact ⟨rfl, rfl, h.1⟩

end Watchtower
